import Mathlib

/-!
Verification of the checkpoint data model and catalog semantics of the
`neptune-client` notebook module (`neptune/checkpoint.py`, `neptune/notebook.py`,
`neptune/notebooks.py`).

The implemented methods (`add_checkpoint`, `get_path`, `get_name`, the `id` and
`owner` accessors) are embedded directly from the source.  The query and
selection methods (`list_checkpoints`, `get_checkpoints`, `download_checkpoint`,
`remove_checkpoint`) have `pass` bodies in the source; their behaviour is
modelled from the specification's CheckpointCatalog contract and the source
docstrings, as marked on each definition.
-/

/-- The `Checkpoint` record of `neptune/checkpoint.py` (and the identical class in
`neptune/notebooks.py`): `__init__(self, _id, _notebook_id, _name, _description, _path)`
stores the five fields; `_name` and `_description` may be `None`. -/
structure Checkpoint where
  id : String
  notebook_id : String
  name : Option String
  description : Option String
  path : String
deriving Repr, DecidableEq

/-- Modelled from the spec: the catalog record over which the filter/query
contract of section 4.1 is stated.  The source's stub methods carry no
implementation, so the record follows the spec's data model: a checkpoint with
its `tags` and `created_at` (absent from the stub `Checkpoint` class but
required by the query contract) together with its owning notebook's `name`
and `owner`, against which the `notebook_name` and `owner` criteria match. -/
structure CatalogEntry where
  id : String
  notebook_name : String
  owner : String
  name : String
  tags : List String
  created_at : Nat
deriving Repr, DecidableEq

/-- Lexicographic comparison of character lists by code point, used to order
opaque string identifiers (`id` ascending) deterministically. -/
def lexLe : List Char → List Char → Bool
  | [], _ => true
  | _ :: _, [] => false
  | a :: as, b :: bs =>
    if a.toNat < b.toNat then true
    else if b.toNat < a.toNat then false
    else lexLe as bs

/-- String order on identifiers: lexicographic on the underlying characters. -/
def strLe (a b : String) : Bool :=
  lexLe a.data b.data

/-- Modelled from the spec: the result order of every catalog query —
`created_at` descending (most recent first), ties broken by `id` ascending
for determinism. -/
def checkpointOrder (a b : CatalogEntry) : Prop :=
  b.created_at < a.created_at ∨ (a.created_at = b.created_at ∧ strLe a.id b.id = true)

instance : DecidableRel checkpointOrder := fun a b => by
  unfold checkpointOrder
  infer_instance

instance : IsTotal CatalogEntry checkpointOrder where
  total a b := by
    have strTotal : ∀ x y : String, strLe x y = true ∨ strLe y x = true := by
      have key : ∀ as bs : List Char, lexLe as bs = true ∨ lexLe bs as = true := by
        intro as
        induction as with
        | nil => intro bs; left; rfl
        | cons a as ih =>
          intro bs
          cases bs with
          | nil => right; rfl
          | cons b bs =>
            by_cases hab : a.toNat < b.toNat
            · left; simp [lexLe, hab]
            · by_cases hba : b.toNat < a.toNat
              · right; simp [lexLe, hba]
              · rcases ih bs with h | h
                · left; simp [lexLe, hab, hba, h]
                · right; simp [lexLe, hab, hba, h]
      intro x y; exact key x.data y.data
    rcases Nat.lt_trichotomy a.created_at b.created_at with h | h | h
    · right; left; exact h
    · rcases strTotal a.id b.id with hs | hs
      · left; right; exact ⟨h, hs⟩
      · right; right; exact ⟨h.symm, hs⟩
    · left; left; exact h

instance : IsTrans CatalogEntry checkpointOrder where
  trans a b c hab hbc := by
    have strTrans : ∀ x y z : String,
        strLe x y = true → strLe y z = true → strLe x z = true := by
      have key : ∀ as bs cs : List Char,
          lexLe as bs = true → lexLe bs cs = true → lexLe as cs = true := by
        intro as
        induction as with
        | nil => intro bs cs _ _; rfl
        | cons a as ih =>
          intro bs cs hab hbc
          cases bs with
          | nil => simp [lexLe] at hab
          | cons b bs =>
            cases cs with
            | nil => simp [lexLe] at hbc
            | cons c cs =>
              simp only [lexLe] at hab hbc ⊢
              by_cases h1 : a.toNat < b.toNat
              · by_cases h2 : b.toNat < c.toNat
                · simp [lt_trans h1 h2]
                · by_cases h3 : c.toNat < b.toNat
                  · simp [h2, h3] at hbc
                  · have hbc' : b.toNat = c.toNat := le_antisymm (not_lt.mp h3) (not_lt.mp h2)
                    simp [hbc' ▸ h1]
              · by_cases h1' : b.toNat < a.toNat
                · simp [h1, h1'] at hab
                · have hab' : a.toNat = b.toNat := le_antisymm (not_lt.mp h1') (not_lt.mp h1)
                  simp only [h1, if_neg, if_neg h1', if_true, if_false] at hab
                  by_cases h2 : b.toNat < c.toNat
                  · simp [hab' ▸ h2]
                  · by_cases h3 : c.toNat < b.toNat
                    · simp [h2, h3] at hbc
                    · simp only [h2, if_neg, if_neg h3, if_true, if_false] at hbc
                      have hac : ¬ a.toNat < c.toNat → ¬ c.toNat < a.toNat →
                          lexLe as cs = true := by
                        intro _ _; exact ih bs cs (by simpa using hab) (by simpa using hbc)
                      by_cases h4 : a.toNat < c.toNat
                      · simp [h4]
                      · have h5 : ¬ c.toNat < a.toNat := by
                          have hbc' : b.toNat = c.toNat :=
                            le_antisymm (not_lt.mp h3) (not_lt.mp h2)
                          rw [← hbc', ← hab']
                          exact lt_irrefl _
                        simp [h4, h5, hac h4 h5]
      intro x y z h1 h2; exact key x.data y.data z.data h1 h2
    rcases hab with h1 | ⟨h1, h1'⟩
    · rcases hbc with h2 | ⟨h2, _⟩
      · exact Or.inl (lt_trans h2 h1)
      · exact Or.inl (h2 ▸ h1)
    · rcases hbc with h2 | ⟨h2, h2'⟩
      · exact Or.inl (h1 ▸ h2)
      · exact Or.inr ⟨h1.trans h2, strTrans _ _ _ h1' h2'⟩

/-- Modelled from the spec: sorting of query results, `created_at` descending
with ties by `id` ascending (the source's stubs return nothing; the docstrings
promise `sorted by created date in descending order (latest first)`). -/
def sortCheckpoints (l : List CatalogEntry) : List CatalogEntry :=
  List.insertionSort checkpointOrder l

/-- Modelled from the spec: an omittable criterion — a single string or a set of
strings, a single value being a one-element set; `none` means omitted, which
matches everything. -/
def Criterion := Option (List String)

/-- Modelled from the spec: match of a single-valued attribute against an
omittable criterion — the attribute must be in the criterion's set. -/
def matchesIn (crit : Criterion) (v : String) : Bool :=
  match crit with
  | none => true
  | some cs => cs.contains v

/-- Modelled from the spec and the `list_checkpoints` docstring: any-of tag
matching — the checkpoint matches if it carries at least one listed tag. -/
def tagAnyOf (crit : Criterion) (tags : List String) : Bool :=
  match crit with
  | none => true
  | some cs => cs.any (fun c => tags.contains c)

/-- Modelled from the spec and the `download_checkpoint`/`remove_checkpoint`
docstrings: all-of tag matching — the checkpoint must carry every listed tag. -/
def tagAllOf (crit : Criterion) (tags : List String) : Bool :=
  match crit with
  | none => true
  | some cs => cs.all (fun c => tags.contains c)

/-- Modelled from the spec: the CheckpointCatalog query criteria of section 4.1
(`notebook_name`, `tag`, `owner`, `checkpoint_id`), all omittable. -/
structure QueryCriteria where
  notebook_name : Criterion
  tag : Criterion
  owner : Criterion
  checkpoint_id : Criterion

/-- Modelled from the spec: whether one catalog entry satisfies the conjunction
of all supplied criteria of the section 4.1 catalog query (any-of tag matching,
the listing mode). -/
def matchesCriteria (c : QueryCriteria) (e : CatalogEntry) : Bool :=
  matchesIn c.notebook_name e.notebook_name
    && tagAnyOf c.tag e.tags
    && matchesIn c.owner e.owner
    && matchesIn c.checkpoint_id e.id

/-- Modelled from the spec: the CheckpointCatalog query of section 4.1 — the
entries satisfying the conjunction of all supplied criteria, ordered by
`created_at` descending, ties by `id` ascending.  Pure, no side effects, and an
empty match set is a valid (empty-list) result, never an error. -/
def catalogQuery (catalog : List CatalogEntry) (c : QueryCriteria) : List CatalogEntry :=
  sortCheckpoints (catalog.filter (fun e => matchesCriteria c e))

/-- Modelled from the spec: `Notebook.list_checkpoints(notebook_name, tag, owner)`
of `neptune/notebook.py` (body `pass`) — the catalog query restricted to its three
criteria, with any-of tag matching per its docstring. -/
def list_checkpoints (catalog : List CatalogEntry)
    (notebook_name tag owner : Criterion) : List CatalogEntry :=
  catalogQuery catalog ⟨notebook_name, tag, owner, none⟩

/-- Modelled from the spec: `Notebook.get_checkpoints(checkpoint_id)` of
`neptune/notebooks.py` (body `pass`) — all checkpoints matching the optional
`checkpoint_id` criterion, sorted by created date in descending order (latest
first) per its docstring, ties by `id` ascending per the spec. -/
def get_checkpoints (catalog : List CatalogEntry) (checkpoint_id : Criterion) :
    List CatalogEntry :=
  catalogQuery catalog ⟨none, none, none, checkpoint_id⟩

/-- Modelled from the spec: the selection filter shared by `download_checkpoint`
and `remove_checkpoint` of `neptune/notebook.py` — `notebook_name` is a required
single name, `checkpoint` an optional checkpoint name, `owner` an optional single
owner, and the tag criterion uses all-of matching per both docstrings.  The
result is ordered most recent first. -/
def selectCheckpoints (catalog : List CatalogEntry) (notebook_name : String)
    (checkpoint : Option String) (tag : Criterion) (owner : Option String) :
    List CatalogEntry :=
  sortCheckpoints (catalog.filter (fun e =>
    (e.notebook_name == notebook_name)
      && (match checkpoint with
          | none => true
          | some c => e.name == c)
      && tagAllOf tag e.tags
      && (match owner with
          | none => true
          | some o => e.owner == o)))

/-- Outcome of a `download_checkpoint` call: the content-fetch calls issued to
the external client, as pairs of checkpoint id and destination file path, and
the non-fatal warnings printed. -/
structure DownloadOutcome where
  fetches : List (String × String)
  warnings : List String
deriving Repr, DecidableEq

/-- Modelled from the spec: `Notebook.download_checkpoint(destination_dir,
notebook_name, checkpoint, tag, owner)` of `neptune/notebook.py` (body `pass`) —
if the filtered result set is nonempty, fetch the head of the descending-ordered
result (the most recent `created_at`) writing it to
`destination_dir/<checkpoint.name>.ipynb`; if empty, print a warning and fetch
nothing. -/
def download_checkpoint (catalog : List CatalogEntry) (destination_dir : String)
    (notebook_name : String) (checkpoint : Option String) (tag : Criterion)
    (owner : Option String) : DownloadOutcome :=
  match selectCheckpoints catalog notebook_name checkpoint tag owner with
  | [] => ⟨[], ["no checkpoint matched the specified criteria"]⟩
  | e :: _ => ⟨[(e.id, destination_dir ++ "/" ++ e.name ++ ".ipynb")], []⟩

/-- Outcome of a `remove_checkpoint` call: the remove calls issued to the
external client (checkpoint ids) and the warnings printed. -/
structure RemoveOutcome where
  removes : List String
  warnings : List String
deriving Repr, DecidableEq

/-- Modelled from the spec: `Notebook.remove_checkpoint(notebook_name,
checkpoint, tag, owner)` of `neptune/notebook.py` (body `pass`) — exactly one
match: issue a remove call for that entry's id; zero matches: silent no-op;
more than one match: remove nothing and print an ambiguity warning. -/
def remove_checkpoint (catalog : List CatalogEntry) (notebook_name : String)
    (checkpoint : String) (tag : Criterion) (owner : Option String) : RemoveOutcome :=
  match selectCheckpoints catalog notebook_name (some checkpoint) tag owner with
  | [] => ⟨[], []⟩
  | [e] => ⟨[e.id], []⟩
  | _ => ⟨[], ["multiple checkpoints match the specified criteria; no checkpoint was removed"]⟩

/-- The local filesystem as the upload path sees it: the set of paths that
reference an existing, readable file, and the `os.path.abspath` resolution. -/
structure FileSystem where
  readable : List String
  abs : String → String

/-- An opaque transport/auth/server-side failure raised by the external
`NotebookClient`; propagated to the caller unmodified. -/
structure RemoteError where
  msg : String
deriving Repr, DecidableEq

/-- The error taxonomy visible to callers of this module: `ValidationError` for
an invalid or unreadable local file path on an upload path, and opaque remote
errors surfaced unchanged. -/
inductive NeptuneError where
  | validationError (msg : String)
  | remoteError (e : RemoteError)
deriving Repr, DecidableEq

/-- One invocation recorded against the external `NotebookClient`:
`create_checkpoint(notebook_id, absolute_source_path, file_stream)` (the stream
recorded by the path it is open on) or `get_last_checkpoint(project, notebook_id)`. -/
inductive ClientCall where
  | create_checkpoint (notebook_id : String) (abs_path : String) (file : String)
  | get_last_checkpoint (project : String) (notebook_id : String)
deriving Repr, DecidableEq

/-- The observable state threaded through a `Notebook` method call: which local
files are currently held open, and the invocations recorded by the external
client double. -/
structure World where
  openFiles : List String
  calls : List ClientCall
deriving Repr, DecidableEq

/-- The external client's responses, supplied as an oracle: what
`create_checkpoint` and `get_last_checkpoint` return, or the `RemoteError`
either raises. -/
structure ClientBehavior where
  create_checkpoint : Except RemoteError Checkpoint
  get_last_checkpoint : Except RemoteError Checkpoint

/-- The `Notebook` class of `neptune/notebook.py` and `neptune/notebooks.py`
(identical `__init__(self, client, project, _id, owner)`): the client reference
is opaque (its behaviour is the `ClientBehavior` oracle). -/
structure Notebook where
  client : String
  project : String
  nid : String
  nowner : String
deriving Repr, DecidableEq

/-- The `id` property of `Notebook`: returns `self._id`. -/
def Notebook.id (nb : Notebook) : String := nb.nid

/-- The `owner` property of `Notebook`: returns `self._owner`. -/
def Notebook.owner (nb : Notebook) : String := nb.nowner

instance {ε α : Type} [DecidableEq ε] [DecidableEq α] : DecidableEq (Except ε α)
  | .ok a, .ok b =>
    if h : a = b then .isTrue (by rw [h])
    else .isFalse (by intro hc; cases hc; exact h rfl)
  | .ok _, .error _ => .isFalse (by intro h; cases h)
  | .error _, .ok _ => .isFalse (by intro h; cases h)
  | .error e, .error f =>
    if h : e = f then .isTrue (by rw [h])
    else .isFalse (by intro hc; cases hc; exact h rfl)

/-- Result of a `Notebook` method call: the returned value or raised error, the
state of `self` after the call, and the resulting world. -/
structure MethodResult (α : Type) where
  ret : Except NeptuneError α
  post : Notebook
  world : World
deriving Repr, DecidableEq

/-- Modelled from the spec: `validate_notebook_path` lives in `neptune/utils.py`,
which is not part of this repository's sources; the spec says an invalid or
unreadable local file path supplied to an upload path raises `ValidationError`,
before any network call.  The validated path is returned for the caller to open. -/
def validate_notebook_path (fs : FileSystem) (file_path : Option String) :
    Except NeptuneError String :=
  match file_path with
  | none => .error (.validationError "no notebook file path supplied")
  | some p =>
    if fs.readable.contains p then .ok p
    else .error (.validationError "notebook file path does not reference an existing, readable file")

/-- `Notebook.add_checkpoint(file_path, tag, name)` of `neptune/notebook.py`:
`validate_notebook_path(file_path)`, then
`with open(file_path) as f: return self._client.create_checkpoint(self.id,
os.path.abspath(file_path), f)`.  The `with` block closes `f` on every exit
path; `tag` and `name` do not occur in the body. -/
def Notebook.add_checkpoint (nb : Notebook) (fs : FileSystem) (cb : ClientBehavior)
    (w : World) (file_path : Option String) (tag : Criterion) (name : Option String) :
    MethodResult Checkpoint :=
  match validate_notebook_path fs file_path with
  | .error e => ⟨.error e, nb, w⟩
  | .ok path =>
    let opened : World := ⟨path :: w.openFiles, w.calls⟩
    let called : World := ⟨opened.openFiles,
      opened.calls ++ [ClientCall.create_checkpoint nb.id (fs.abs path) path]⟩
    let ret : Except NeptuneError Checkpoint :=
      match cb.create_checkpoint with
      | .ok c => .ok c
      | .error e => .error (.remoteError e)
    ⟨ret, nb, ⟨called.openFiles.erase path, called.calls⟩⟩

/-- `Notebook.get_path()` (identical in both files): returns
`self._client.get_last_checkpoint(self._project, self._id).path`. -/
def Notebook.get_path (nb : Notebook) (cb : ClientBehavior) (w : World) :
    MethodResult String :=
  let called : World := ⟨w.openFiles, w.calls ++ [ClientCall.get_last_checkpoint nb.project nb.nid]⟩
  match cb.get_last_checkpoint with
  | .ok c => ⟨.ok c.path, nb, called⟩
  | .error e => ⟨.error (.remoteError e), nb, called⟩

/-- `Notebook.get_name()` (identical in both files): returns
`self._client.get_last_checkpoint(self._project, self._id).name`. -/
def Notebook.get_name (nb : Notebook) (cb : ClientBehavior) (w : World) :
    MethodResult (Option String) :=
  let called : World := ⟨w.openFiles, w.calls ++ [ClientCall.get_last_checkpoint nb.project nb.nid]⟩
  match cb.get_last_checkpoint with
  | .ok c => ⟨.ok c.name, nb, called⟩
  | .error e => ⟨.error (.remoteError e), nb, called⟩

namespace notebooks

/-- `Notebook.add_checkpoint(file_path, name, description)` of
`neptune/notebooks.py`: same body as the `neptune/notebook.py` variant —
`validate_notebook_path(file_path)`, then `with open(file_path) as f: return
self._client.create_checkpoint(self.id, os.path.abspath(file_path), f)`.
`name` and `description` do not occur in the body. -/
def Notebook.add_checkpoint (nb : Notebook) (fs : FileSystem) (cb : ClientBehavior)
    (w : World) (file_path : Option String) (name description : Option String) :
    MethodResult Checkpoint :=
  match validate_notebook_path fs file_path with
  | .error e => ⟨.error e, nb, w⟩
  | .ok path =>
    let opened : World := ⟨path :: w.openFiles, w.calls⟩
    let called : World := ⟨opened.openFiles,
      opened.calls ++ [ClientCall.create_checkpoint nb.id (fs.abs path) path]⟩
    let ret : Except NeptuneError Checkpoint :=
      match cb.create_checkpoint with
      | .ok c => .ok c
      | .error e => .error (.remoteError e)
    ⟨ret, nb, ⟨called.openFiles.erase path, called.calls⟩⟩

end notebooks

/-- The four-checkpoint tag example from the spec's testable properties:
checkpoints tagged exactly a, b, a and b, c, with distinct creation times. -/
def taggedA : CatalogEntry := ⟨"cp1", "my-notebook", "james", "one", ["a"], 1⟩

/-- Second entry of the tag example: tagged exactly b. -/
def taggedB : CatalogEntry := ⟨"cp2", "my-notebook", "james", "two", ["b"], 2⟩

/-- Third entry of the tag example: tagged a and b. -/
def taggedAB : CatalogEntry := ⟨"cp3", "my-notebook", "james", "three", ["a", "b"], 3⟩

/-- Fourth entry of the tag example: tagged exactly c. -/
def taggedC : CatalogEntry := ⟨"cp4", "my-notebook", "james", "four", ["c"], 4⟩

/-- The catalog holding the four tag-example checkpoints. -/
def tagExampleCatalog : List CatalogEntry := [taggedA, taggedB, taggedAB, taggedC]

/-- A concrete checkpoint returned by the sample client double. -/
def sampleCheckpoint : Checkpoint :=
  ⟨"cp9", "nb1", some "visualizations", none, "/home/james/notes.ipynb"⟩

/-- A client double whose calls succeed, returning `sampleCheckpoint`. -/
def sampleClient : ClientBehavior := ⟨.ok sampleCheckpoint, .ok sampleCheckpoint⟩

/-- A client double whose calls raise an opaque remote error. -/
def sampleFailingClient : ClientBehavior := ⟨.error ⟨"server unavailable"⟩, .error ⟨"server unavailable"⟩⟩

/-- A concrete filesystem with a single readable notebook file. -/
def sampleFs : FileSystem := ⟨["notes.ipynb"], fun p => "/home/james/" ++ p⟩

/-- A concrete notebook constructed with id nb1 and owner james. -/
def sampleNotebook : Notebook := ⟨"client0", "proj0", "nb1", "james"⟩

/-- A world with no open files and no recorded client calls. -/
def emptyWorld : World := ⟨[], []⟩

/-- First of two checkpoints sharing the name three: an ambiguous removal target. -/
def dupA : CatalogEntry := ⟨"cp5", "my-notebook", "james", "three", ["a"], 5⟩

/-- Second of the two checkpoints sharing the name three. -/
def dupB : CatalogEntry := ⟨"cp6", "my-notebook", "james", "three", ["a"], 6⟩

/-- A catalog in which the name three matches two checkpoints. -/
def dupCatalog : List CatalogEntry := [dupA, dupB]

/-- A catalog of three checkpoints of one notebook, for the
most-recent-selection example. -/
def threeCatalog : List CatalogEntry := [taggedA, taggedB, taggedAB]

theorem sortCheckpoints_sorted (l : List CatalogEntry) :
    List.Sorted checkpointOrder (sortCheckpoints l) :=
  List.sorted_insertionSort checkpointOrder l

theorem sortCheckpoints_perm (l : List CatalogEntry) : (sortCheckpoints l).Perm l :=
  List.perm_insertionSort checkpointOrder l

theorem mem_sortCheckpoints {e : CatalogEntry} {l : List CatalogEntry} :
    e ∈ sortCheckpoints l ↔ e ∈ l :=
  List.mem_insertionSort checkpointOrder

theorem selectCheckpoints_sorted (catalog : List CatalogEntry) (nn : String)
    (cp : Option String) (tg : Criterion) (ow : Option String) :
    List.Sorted checkpointOrder (selectCheckpoints catalog nn cp tg ow) :=
  List.sorted_insertionSort checkpointOrder _

theorem head_dominates {e : CatalogEntry} {l : List CatalogEntry}
    (h : List.Sorted checkpointOrder (e :: l)) :
    ∀ d ∈ e :: l, d.created_at ≤ e.created_at := by
  intro d hd
  rcases List.mem_cons.mp hd with rfl | hd
  · exact le_refl _
  · rcases List.rel_of_sorted_cons h d hd with h' | ⟨h', _⟩
    · exact le_of_lt h'
    · exact le_of_eq h'.symm

/-- Claim C3: `get_checkpoints` called with no criteria returns every known
checkpoint, as a sequence ordered by `created_at` descending (latest first),
with ties broken by `id` ascending. -/
theorem get_checkpoints_no_criteria_all_sorted (catalog : List CatalogEntry) :
    (get_checkpoints catalog none).Perm catalog
    ∧ List.Sorted (fun a b => b.created_at < a.created_at
        ∨ (a.created_at = b.created_at ∧ strLe a.id b.id = true))
      (get_checkpoints catalog none) := by
  constructor
  · have hf : catalog.filter (fun e => matchesCriteria ⟨none, none, none, none⟩ e) = catalog := by
      simp [matchesCriteria, matchesIn, tagAnyOf]
    simp only [get_checkpoints, catalogQuery]
    rw [hf]
    exact sortCheckpoints_perm catalog
  · exact sortCheckpoints_sorted _

/-- Claim C4: for every combination of supplied criteria, the catalog query
returns exactly the checkpoints satisfying the conjunction of all supplied
criteria — membership in the result is the intersection of the per-criterion
match sets, not the union. -/
theorem catalogQuery_conjunction_of_criteria (catalog : List CatalogEntry)
    (c : QueryCriteria) (e : CatalogEntry) :
    e ∈ catalogQuery catalog c ↔
      (e ∈ catalogQuery catalog ⟨c.notebook_name, none, none, none⟩
        ∧ e ∈ catalogQuery catalog ⟨none, c.tag, none, none⟩
        ∧ e ∈ catalogQuery catalog ⟨none, none, c.owner, none⟩
        ∧ e ∈ catalogQuery catalog ⟨none, none, none, c.checkpoint_id⟩) := by
  simp only [catalogQuery, mem_sortCheckpoints, List.mem_filter, matchesCriteria,
    matchesIn, tagAnyOf, Bool.and_eq_true, Bool.and_true, Bool.true_and]
  tauto

/-- Claim C5: tag filtering for `list_checkpoints` uses any-of semantics — a
checkpoint matches a list-valued tag criterion if it carries at least one of
the listed tags; on checkpoints tagged a, b, a and b, c, the query
tag equal to a, b returns the first three and not the fourth. -/
theorem list_checkpoints_tag_any_of (catalog : List CatalogEntry) (ts : List String)
    (e : CatalogEntry) :
    (e ∈ list_checkpoints catalog none (some ts) none ↔
      e ∈ catalog ∧ ∃ t ∈ ts, t ∈ e.tags)
    ∧ list_checkpoints tagExampleCatalog none (some ["a", "b"]) none
        = [taggedAB, taggedB, taggedA] := by
  constructor
  · simp only [list_checkpoints, catalogQuery, mem_sortCheckpoints, List.mem_filter,
      matchesCriteria, matchesIn, tagAnyOf, Bool.and_eq_true, Bool.and_true, Bool.true_and,
      List.any_eq_true, List.contains, List.elem_iff]
  · decide

/-- Claim C6: tag filtering for `download_checkpoint` and `remove_checkpoint`
uses all-of semantics — their shared selection filter admits a checkpoint for a
list-valued tag criterion only if it carries every listed tag; on checkpoints
tagged a, b, a and b, c, the criterion tag equal to a, b matches only the
checkpoint tagged a and b, which is the one downloaded and the one removed. -/
theorem selection_tag_all_of (catalog : List CatalogEntry) (nn : String)
    (cp : Option String) (ts : List String) (ow : Option String) (e : CatalogEntry) :
    (e ∈ selectCheckpoints catalog nn cp (some ts) ow ↔
      (e ∈ catalog ∧ e.notebook_name = nn
        ∧ (∀ c, cp = some c → e.name = c)
        ∧ (∀ t ∈ ts, t ∈ e.tags)
        ∧ (∀ o, ow = some o → e.owner = o)))
    ∧ selectCheckpoints tagExampleCatalog "my-notebook" none (some ["a", "b"]) none
        = [taggedAB]
    ∧ download_checkpoint tagExampleCatalog "/d" "my-notebook" none (some ["a", "b"]) none
        = ⟨[("cp3", "/d/three.ipynb")], []⟩
    ∧ remove_checkpoint tagExampleCatalog "my-notebook" "three" (some ["a", "b"]) none
        = ⟨["cp3"], []⟩ := by
  refine ⟨?_, by decide, by decide, by decide⟩
  cases cp with
  | none =>
    cases ow with
    | none =>
      simp only [selectCheckpoints, mem_sortCheckpoints, List.mem_filter, tagAllOf,
        Bool.and_eq_true, Bool.and_true, Bool.true_and, List.all_eq_true,
        List.contains, List.elem_iff, beq_iff_eq]
      aesop
    | some o =>
      simp only [selectCheckpoints, mem_sortCheckpoints, List.mem_filter, tagAllOf,
        Bool.and_eq_true, Bool.and_true, Bool.true_and, List.all_eq_true,
        List.contains, List.elem_iff, beq_iff_eq]
      aesop
  | some c =>
    cases ow with
    | none =>
      simp only [selectCheckpoints, mem_sortCheckpoints, List.mem_filter, tagAllOf,
        Bool.and_eq_true, Bool.and_true, Bool.true_and, List.all_eq_true,
        List.contains, List.elem_iff, beq_iff_eq]
      aesop
    | some o =>
      simp only [selectCheckpoints, mem_sortCheckpoints, List.mem_filter, tagAllOf,
        Bool.and_eq_true, Bool.and_true, Bool.true_and, List.all_eq_true,
        List.contains, List.elem_iff, beq_iff_eq]
      aesop

/-- Claim C1: for every filter criteria, `remove_checkpoint` removes a
checkpoint if and only if the filtered result set has exactly one entry,
issuing a remove call to the external client for that entry's id; zero entries
is a silent no-op; more than one entry removes nothing and surfaces an
ambiguity warning, leaving all state unchanged. -/
theorem remove_checkpoint_exactly_one (catalog : List CatalogEntry)
    (notebook_name checkpoint : String) (tag : Criterion) (owner : Option String) :
    ((remove_checkpoint catalog notebook_name checkpoint tag owner).removes ≠ [] ↔
      (selectCheckpoints catalog notebook_name (some checkpoint) tag owner).length = 1)
    ∧ (∀ e, selectCheckpoints catalog notebook_name (some checkpoint) tag owner = [e] →
        remove_checkpoint catalog notebook_name checkpoint tag owner = ⟨[e.id], []⟩)
    ∧ (selectCheckpoints catalog notebook_name (some checkpoint) tag owner = [] →
        remove_checkpoint catalog notebook_name checkpoint tag owner = ⟨[], []⟩)
    ∧ (2 ≤ (selectCheckpoints catalog notebook_name (some checkpoint) tag owner).length →
        (remove_checkpoint catalog notebook_name checkpoint tag owner).removes = []
        ∧ (remove_checkpoint catalog notebook_name checkpoint tag owner).warnings ≠ []) := by
  cases hsel : selectCheckpoints catalog notebook_name (some checkpoint) tag owner with
  | nil =>
    refine ⟨?_, ?_, ?_, ?_⟩
    · simp [remove_checkpoint, hsel]
    · intro e he; simp at he
    · intro _; simp [remove_checkpoint, hsel]
    · intro h2; simp at h2
  | cons e l =>
    cases l with
    | nil =>
      refine ⟨?_, ?_, ?_, ?_⟩
      · simp [remove_checkpoint, hsel]
      · intro e' he
        injection he with h1 _
        subst h1
        simp [remove_checkpoint, hsel]
      · intro h; simp at h
      · intro h2; simp at h2
    | cons f m =>
      refine ⟨?_, ?_, ?_, ?_⟩
      · simp [remove_checkpoint, hsel]
      · intro e' he; simp at he
      · intro h; simp at h
      · intro _; simp [remove_checkpoint, hsel]

/-- Witness for claim C1: on a catalog where the criteria match two
checkpoints, the removal is refused and a warning is surfaced. -/
theorem remove_checkpoint_exactly_one_witness :
    2 ≤ (selectCheckpoints dupCatalog "my-notebook" (some "three") none none).length
    ∧ (remove_checkpoint dupCatalog "my-notebook" "three" none none).removes = []
    ∧ (remove_checkpoint dupCatalog "my-notebook" "three" none none).warnings ≠ [] := by
  have h := (remove_checkpoint_exactly_one dupCatalog "my-notebook" "three" none none).2.2.2
      (by decide)
  exact ⟨by decide, h.1, h.2⟩

/-- Claim C2: for every filter criteria, `download_checkpoint` with a nonempty
filtered result set fetches exactly the head of the descending-ordered result
— the entry with the most recent `created_at` — writing it to
`destination_dir/<checkpoint.name>.ipynb`; with an empty result set it emits a
non-fatal warning and performs no download. -/
theorem download_checkpoint_picks_latest (catalog : List CatalogEntry)
    (destination_dir notebook_name : String) (checkpoint : Option String)
    (tag : Criterion) (owner : Option String) :
    (selectCheckpoints catalog notebook_name checkpoint tag owner = [] →
      (download_checkpoint catalog destination_dir notebook_name checkpoint tag owner).fetches
          = []
      ∧ (download_checkpoint catalog destination_dir notebook_name checkpoint tag owner).warnings
          ≠ [])
    ∧ (∀ e l, selectCheckpoints catalog notebook_name checkpoint tag owner = e :: l →
        (download_checkpoint catalog destination_dir notebook_name checkpoint tag owner).fetches
            = [(e.id, destination_dir ++ "/" ++ e.name ++ ".ipynb")]
        ∧ (download_checkpoint catalog destination_dir notebook_name checkpoint tag owner).warnings
            = []
        ∧ ∀ d ∈ selectCheckpoints catalog notebook_name checkpoint tag owner,
            d.created_at ≤ e.created_at) := by
  constructor
  · intro h
    simp [download_checkpoint, h]
  · intro e l h
    have hs := selectCheckpoints_sorted catalog notebook_name checkpoint tag owner
    rw [h] at hs
    refine ⟨?_, ?_, ?_⟩
    · simp [download_checkpoint, h]
    · simp [download_checkpoint, h]
    · intro d hd
      rw [h] at hd
      exact head_dominates hs d hd

/-- Witness for claim C2: on criteria matching three checkpoints, exactly the
one with the latest `created_at` is fetched, with no warning. -/
theorem download_checkpoint_picks_latest_witness :
    selectCheckpoints threeCatalog "my-notebook" none none none
        = taggedAB :: [taggedB, taggedA]
    ∧ (download_checkpoint threeCatalog "/home/james" "my-notebook" none
        none none).fetches
        = [(taggedAB.id, "/home/james" ++ "/" ++ taggedAB.name ++ ".ipynb")]
    ∧ (download_checkpoint threeCatalog "/home/james" "my-notebook" none
        none none).warnings = [] := by
  have h : selectCheckpoints threeCatalog "my-notebook" none none none
      = taggedAB :: [taggedB, taggedA] := by decide
  have hh := (download_checkpoint_picks_latest threeCatalog "/home/james" "my-notebook"
      none none none).2 taggedAB [taggedB, taggedA] h
  exact ⟨h, hh.1, hh.2.1⟩

/-- Witness for claim C6: on checkpoints tagged a, b, a and b, c, the all-of
selection with tags a, b matches only the checkpoint tagged a and b, and the
removal call is issued for exactly that checkpoint's id. -/
theorem selection_tag_all_of_witness :
    selectCheckpoints tagExampleCatalog "my-notebook" none (some ["a", "b"]) none = [taggedAB]
    ∧ remove_checkpoint tagExampleCatalog "my-notebook" "three" (some ["a", "b"]) none
        = ⟨["cp3"], []⟩ := by
  have h := selection_tag_all_of tagExampleCatalog "my-notebook" none ["a", "b"] none taggedAB
  exact ⟨h.2.1, h.2.2.2⟩

/-- Claim C7: `add_checkpoint` called with a `file_path` that does not
reference an existing, readable file raises `ValidationError` before any call
reaches the external client — the world is left untouched (no file opened, the
client records zero invocations), in both `neptune/notebook.py` and
`neptune/notebooks.py`. -/
theorem add_checkpoint_validation_fails_fast (nb : Notebook) (fs : FileSystem)
    (cb : ClientBehavior) (w : World) (p : String) (tag : Criterion)
    (nm nm2 d : Option String) (h : fs.readable.contains p = false) :
    (nb.add_checkpoint fs cb w (some p) tag nm).ret
        = .error (.validationError
            "notebook file path does not reference an existing, readable file")
    ∧ (nb.add_checkpoint fs cb w (some p) tag nm).world = w
    ∧ (notebooks.Notebook.add_checkpoint nb fs cb w (some p) nm2 d).ret
        = .error (.validationError
            "notebook file path does not reference an existing, readable file")
    ∧ (notebooks.Notebook.add_checkpoint nb fs cb w (some p) nm2 d).world = w := by
  have h' : ¬ p ∈ fs.readable := fun hm => by
    have hc : fs.readable.contains p = true := List.elem_iff.mpr hm
    rw [h] at hc
    cases hc
  refine ⟨?_, ?_, ?_, ?_⟩ <;>
    simp [Notebook.add_checkpoint, notebooks.Notebook.add_checkpoint,
      validate_notebook_path, h']

/-- Witness for claim C7: on a filesystem without the requested file, the
upload raises `ValidationError` and the client double records zero
invocations. -/
theorem add_checkpoint_validation_fails_fast_witness :
    sampleFs.readable.contains "missing.ipynb" = false
    ∧ (sampleNotebook.add_checkpoint sampleFs sampleClient emptyWorld
        (some "missing.ipynb") none none).ret
        = .error (.validationError
            "notebook file path does not reference an existing, readable file")
    ∧ (sampleNotebook.add_checkpoint sampleFs sampleClient emptyWorld
        (some "missing.ipynb") none none).world = emptyWorld := by
  have h := add_checkpoint_validation_fails_fast sampleNotebook sampleFs sampleClient
      emptyWorld "missing.ipynb" none none none none (by decide)
  exact ⟨by decide, h.1, h.2.1⟩

/-- Claim C8: a `Notebook`'s `id` and `owner` are immutable and read-only after
construction — the accessors return the construction-time `_id` and `owner`,
and no operation of the class changes the notebook. -/
theorem notebook_id_owner_immutable (client project i o : String) (fs : FileSystem)
    (cb : ClientBehavior) (w : World) (fp : Option String) (tag : Criterion)
    (nm nm2 d : Option String) :
    (Notebook.mk client project i o).id = i
    ∧ (Notebook.mk client project i o).owner = o
    ∧ ((Notebook.mk client project i o).add_checkpoint fs cb w fp tag nm).post
        = Notebook.mk client project i o
    ∧ (notebooks.Notebook.add_checkpoint (Notebook.mk client project i o) fs cb w fp nm2 d).post
        = Notebook.mk client project i o
    ∧ ((Notebook.mk client project i o).get_path cb w).post = Notebook.mk client project i o
    ∧ ((Notebook.mk client project i o).get_name cb w).post = Notebook.mk client project i o := by
  refine ⟨rfl, rfl, ?_, ?_, ?_, ?_⟩ <;>
    · simp only [Notebook.add_checkpoint, notebooks.Notebook.add_checkpoint,
        Notebook.get_path, Notebook.get_name]
      split <;> rfl

/-- Claim C9: the file handle opened by `add_checkpoint` is released on every
exit path — whatever the validation outcome and whether the client call
returns normally or raises, the set of open files afterwards equals the set
before, in both source files. -/
theorem add_checkpoint_releases_file_handle (nb : Notebook) (fs : FileSystem)
    (cb : ClientBehavior) (w : World) (fp : Option String) (tag : Criterion)
    (nm nm2 d : Option String) :
    ((nb.add_checkpoint fs cb w fp tag nm).world.openFiles = w.openFiles)
    ∧ ((notebooks.Notebook.add_checkpoint nb fs cb w fp nm2 d).world.openFiles
        = w.openFiles) := by
  constructor <;>
  · simp only [Notebook.add_checkpoint, notebooks.Notebook.add_checkpoint]
    split
    · rfl
    · simp [List.erase_cons_head]

/-- Claim C10: for every `add_checkpoint` call that passes validation, the
optional `tag`, `name` and `description` arguments have no effect on the
outcome; the single call made to the external client is
`create_checkpoint(notebook id, absolute path, open file handle)`, and the
client's result is returned unchanged. -/
theorem add_checkpoint_ignores_optional_args (nb : Notebook) (fs : FileSystem)
    (cb : ClientBehavior) (w : World) (p : String) (tag tag2 : Criterion)
    (nm nm2 d d2 : Option String) (h : fs.readable.contains p = true) :
    nb.add_checkpoint fs cb w (some p) tag nm = nb.add_checkpoint fs cb w (some p) tag2 nm2
    ∧ notebooks.Notebook.add_checkpoint nb fs cb w (some p) nm d
        = nb.add_checkpoint fs cb w (some p) tag nm
    ∧ (nb.add_checkpoint fs cb w (some p) tag nm).world.calls
        = w.calls ++ [ClientCall.create_checkpoint nb.id (fs.abs p) p]
    ∧ (∀ c, cb.create_checkpoint = .ok c →
        (nb.add_checkpoint fs cb w (some p) tag nm).ret = .ok c)
    ∧ (∀ e, cb.create_checkpoint = .error e →
        (nb.add_checkpoint fs cb w (some p) tag nm).ret = .error (.remoteError e)) := by
  have h' : p ∈ fs.readable := List.elem_iff.mp h
  refine ⟨rfl, rfl, ?_, ?_, ?_⟩
  · simp [Notebook.add_checkpoint, validate_notebook_path, h']
  · intro c hc
    simp [Notebook.add_checkpoint, validate_notebook_path, h', hc]
  · intro e he
    simp [Notebook.add_checkpoint, validate_notebook_path, h', he]

/-- Witness for claim C10: a successful upload of an existing file records
exactly one `create_checkpoint` call and returns the client's checkpoint
unchanged. -/
theorem add_checkpoint_ignores_optional_args_witness :
    sampleFs.readable.contains "notes.ipynb" = true
    ∧ sampleClient.create_checkpoint = .ok sampleCheckpoint
    ∧ (sampleNotebook.add_checkpoint sampleFs sampleClient emptyWorld
        (some "notes.ipynb") none none).world.calls
        = emptyWorld.calls
            ++ [ClientCall.create_checkpoint sampleNotebook.id
                (sampleFs.abs "notes.ipynb") "notes.ipynb"]
    ∧ (sampleNotebook.add_checkpoint sampleFs sampleClient emptyWorld
        (some "notes.ipynb") none none).ret = .ok sampleCheckpoint := by
  have h := add_checkpoint_ignores_optional_args sampleNotebook sampleFs sampleClient
      emptyWorld "notes.ipynb" none none none none none none (by decide)
  exact ⟨by decide, rfl, h.2.2.1, h.2.2.2.1 sampleCheckpoint rfl⟩
